import Mathlib

/-!
Verification of the credential-lifecycle sidecar of
`vault-kube-cloud-credentials` against its natural-language specification.

The Go sources under `sidecar/` are shallowly embedded as Lean definitions:

* instants and `time.Duration` values are `Int` nanoseconds;
* the float computation of `sleepDuration` is modelled over `ℚ`
  (exact arithmetic on the same formula, float rounding elided);
* fallible operations return `Except String _` and the vault environment
  (what each network call would return) is passed explicitly;
* `nil` Go pointers are `Option.none`.
-/

namespace VKCC

/-! ## Backoff scheduler: renewal-interval jitter (sidecar.go)

`sleepDuration` in sidecar.go computes
`time.Duration((float64(leaseDuration.Nanoseconds()) * 1 / 3) * (rnd.Float64() + 1.50) / 2)`.
We model the arithmetic exactly over `ℚ`; `leaseDuration` is the duration in
nanoseconds and `u` is the value returned by `rnd.Float64()`, which lies in
`[0, 1)`. The final truncation of the float to an integer number of
nanoseconds is elided (exact-arithmetic model). -/

/-- Jittered renewal sleep, from `sleepDuration` in sidecar.go. -/
def sleepDuration (leaseDuration : ℚ) (u : ℚ) : ℚ :=
  (leaseDuration * 1 / 3) * ((u + 3/2) / 2)

/-- The jitter factor `U = (u + 1.5) / 2` applied to one third of the lease
duration. -/
def jitterFactor (u : ℚ) : ℚ := (u + 3/2) / 2

theorem sleepDuration_eq_third_mul_factor (d u : ℚ) :
    sleepDuration d u = d * (1/3) * jitterFactor u := by
  unfold sleepDuration jitterFactor
  ring

/-- C1: for every lease duration `D > 0` and every value `u ∈ [0, 1)` of the
uniform draw `rnd.Float64()`, the renewal sleep satisfies
`D/3 * 0.75 ≤ sleepDuration D u < D`, and the sleep equals `D * (1/3) * U`
for a factor `U ∈ [0.75, 1.25)` (so in particular `U ∈ [0.75, 1.25]`). -/
theorem sleepDuration_bounds (d u : ℚ) (hd : 0 < d) (hu0 : 0 ≤ u) (hu1 : u < 1) :
    d / 3 * (3/4) ≤ sleepDuration d u ∧
    sleepDuration d u < d ∧
    sleepDuration d u = d * (1/3) * jitterFactor u ∧
    3/4 ≤ jitterFactor u ∧ jitterFactor u ≤ 5/4 := by
  unfold sleepDuration jitterFactor
  refine ⟨by nlinarith, by nlinarith, by ring, by nlinarith, by nlinarith⟩

/-- Witness for C1: concrete evaluation at `D = 3` (seconds, say) and
`u = 1/2`, where the sleep is `9/8` and the bounds hold. -/
theorem sleepDuration_bounds_witness :
    (0 : ℚ) < 3 ∧ (0 : ℚ) ≤ 1/2 ∧ (1/2 : ℚ) < 1 ∧
    ((3 : ℚ) / 3 * (3/4) ≤ sleepDuration 3 (1/2) ∧
      sleepDuration 3 (1/2) < 3 ∧
      sleepDuration 3 (1/2) = 3 * (1/3) * jitterFactor (1/2) ∧
      3/4 ≤ jitterFactor (1/2) ∧ jitterFactor (1/2) ≤ 5/4) :=
  ⟨by norm_num, by norm_num, by norm_num,
    sleepDuration_bounds 3 (1/2) (by norm_num) (by norm_num) (by norm_num)⟩

/-! ## Base64 decoding (used by `newKey` in provider_gcp.go)

`newKey` decodes the `private_key_data` field with Go's
`base64.StdEncoding.DecodeString` and writes the decoded bytes to the
destination file. We embed a standard base64 decoder over byte values
(`Nat < 256`). Go's `DecodeString` returns the bytes decoded before the
first corrupt group together with an error, and `newKey` ignores the error
and writes those bytes anyway; our decoder likewise returns the bytes of
the groups decoded before the first invalid group. -/

/-- Value of one base64 alphabet character (`A-Z a-z 0-9 + /`). -/
def b64Index (c : Char) : Option Nat :=
  let n := c.toNat
  if 65 ≤ n ∧ n ≤ 90 then some (n - 65)
  else if 97 ≤ n ∧ n ≤ 122 then some (n - 97 + 26)
  else if 48 ≤ n ∧ n ≤ 57 then some (n - 48 + 52)
  else if n = 43 then some 62
  else if n = 47 then some 63
  else none

/-- Decode base64 input four characters at a time, handling `=` padding,
returning the bytes decoded before the first invalid group. -/
def base64DecodeGroups : List Char → List Nat
  | c1 :: c2 :: c3 :: c4 :: rest =>
    match b64Index c1, b64Index c2 with
    | some v1, some v2 =>
      if c3 = '=' then
        if c4 = '=' then [v1 * 4 + v2 / 16] else []
      else
        match b64Index c3 with
        | some v3 =>
          if c4 = '=' then [v1 * 4 + v2 / 16, v2 % 16 * 16 + v3 / 4]
          else
            match b64Index c4 with
            | some v4 =>
              (v1 * 4 + v2 / 16) :: (v2 % 16 * 16 + v3 / 4) :: (v3 % 4 * 64 + v4) ::
                base64DecodeGroups rest
            | none => []
        | none => []
    | _, _ => []
  | _ => []

/-- Decode a base64 string into bytes, as Go's
`base64.StdEncoding.DecodeString` used by `newKey`. -/
def base64DecodeString (s : String) : List Nat := base64DecodeGroups s.data

/-! ## GCP service-account key provider (provider_gcp.go)

State and one renewal step of the `service_account_key` secret type.
Instants (`now`, `leaseExpiresAt`) and durations are `Int` nanoseconds;
lease durations reported by the vault are whole seconds, multiplied by
`time.Second = 10^9` nanoseconds as in the Go code. The vault client is
replaced by a `GCPKeyVault` record holding what each network call would
return (`none` meaning the call errors). -/

/-- Nanoseconds in `n` seconds (`time.Duration(n) * time.Second`). -/
def seconds (n : Int) : Int := n * 1000000000

/-- Mutable fields of `GCPProviderConfig` used by the key flow. -/
structure GCPKeyState where
  leaseID : String
  leaseDuration : Int
  leaseExpiresAt : Int
  deriving DecidableEq, Repr

/-- Secret returned by `Logical().Read(path + "/static-account/" + name + "/key")`. -/
structure GCPKeySecret where
  privateKeyData : String
  leaseDuration : Int
  leaseID : String
  deriving DecidableEq, Repr

/-- Secret returned by `Sys().Renew(leaseID, increment)`. -/
structure GCPRenewedLease where
  leaseDuration : Int
  deriving DecidableEq, Repr

/-- Outcomes of the vault calls a key-renewal step may make; `none` means
the call returns an error. `keyJSONValid` abstracts whether
`json.Unmarshal` succeeds on the decoded key payload (the model does not
re-implement Go's JSON parser). -/
structure GCPKeyVault where
  renewResult : Option GCPRenewedLease
  keyReadResult : Option GCPKeySecret
  keyJSONValid : Bool
  deriving DecidableEq, Repr

/-- Which vault operation a `renewKey` step performed. -/
inductive GCPKeyCall
  | renewLease
  | issueKey
  deriving DecidableEq, Repr

/-- Result of one `renewKey` step: the updated provider state, the vault
operation performed, the bytes written to the destination key file (if
any), and the returned next-renewal interval or error. -/
structure GCPKeyStep where
  state : GCPKeyState
  call : GCPKeyCall
  fileWritten : Option (List Nat)
  result : Except String Int
  deriving Repr

/-- One run of `newKey` (provider_gcp.go): read a fresh key secret, decode
its base64 `private_key_data`, overwrite the destination file, record the
new lease, and return its duration (or an error if the secret read or the
JSON unmarshal of the decoded payload fails; the file is written and the
lease recorded even when the unmarshal fails, as in the Go code). -/
def newKey (s : GCPKeyState) (now : Int) (vault : GCPKeyVault) : GCPKeyStep :=
  match vault.keyReadResult with
  | none =>
    { state := s, call := .issueKey, fileWritten := none,
      result := .error "unable to read key secret" }
  | some k =>
    let decoded := base64DecodeString k.privateKeyData
    let d := seconds k.leaseDuration
    { state := { leaseID := k.leaseID, leaseDuration := d, leaseExpiresAt := now + d },
      call := .issueKey,
      fileWritten := some decoded,
      result := if vault.keyJSONValid then .ok d else .error "unable to unmarshal key" }

/-- One run of `renewKey` (provider_gcp.go): if no lease is held
(`leaseID == ""`) or `time.Since(leaseExpiresAt) > 0`, issue a new key via
`newKey`; otherwise renew the held lease, returning an error if the
renewal call fails. -/
def renewKey (s : GCPKeyState) (now : Int) (vault : GCPKeyVault) : GCPKeyStep :=
  if s.leaseID = "" ∨ now - s.leaseExpiresAt > 0 then
    newKey s now vault
  else
    match vault.renewResult with
    | none =>
      { state := s, call := .renewLease, fileWritten := none,
        result := .error "unable to renew key lease" }
    | some r =>
      let d := seconds r.leaseDuration
      { state := { s with leaseDuration := d, leaseExpiresAt := now + d },
        call := .renewLease, fileWritten := none, result := .ok d }

theorem newKey_call_issueKey (s : GCPKeyState) (now : Int) (vault : GCPKeyVault) :
    (newKey s now vault).call = .issueKey := by
  unfold newKey
  cases vault.keyReadResult <;> rfl

/-- C2: a `renewKey` step calls the lease-renewal operation exactly when a
lease ID is held and the held lease has not yet expired (its expiry time
is still in the future in the sense that `now` is not past
`leaseExpiresAt`); when no lease ID is held or the held lease has already
expired, it calls the key-issuance operation, which decodes the base64 key
payload and overwrites the destination file with the decoded bytes. -/
theorem renewKey_branch (s : GCPKeyState) (now : Int) (vault : GCPKeyVault) :
    ((renewKey s now vault).call = .renewLease ↔
      s.leaseID ≠ "" ∧ ¬ now - s.leaseExpiresAt > 0) ∧
    ((s.leaseID = "" ∨ now - s.leaseExpiresAt > 0) →
      (renewKey s now vault).call = .issueKey ∧
      ∀ k, vault.keyReadResult = some k →
        (renewKey s now vault).fileWritten = some (base64DecodeString k.privateKeyData)) := by
  by_cases h : s.leaseID = "" ∨ now - s.leaseExpiresAt > 0
  · rw [renewKey, if_pos h]
    constructor
    · rw [newKey_call_issueKey]
      simp only [iff_iff_implies_and_implies]
      constructor
      · intro hfalse
        exact absurd hfalse (by intro hc; cases hc)
      · intro hand
        exact absurd h (by tauto)
    · intro _
      refine ⟨newKey_call_issueKey _ _ _, ?_⟩
      intro k hk
      simp [newKey, hk]
  · rw [renewKey, if_neg h]
    constructor
    · constructor
      · intro _
        exact ⟨fun he => h (Or.inl he), fun hg => h (Or.inr hg)⟩
      · intro _
        cases hv : vault.renewResult <;> simp [hv]
    · intro hcond
      exact absurd hcond h

/-- Witness for C2: with no lease held and a concrete key secret whose
payload is the base64 of the bytes "hi", the step issues a key and writes
the decoded bytes `[104, 105]` to the destination file. -/
theorem renewKey_branch_witness :
    (renewKey { leaseID := "", leaseDuration := 0, leaseExpiresAt := 0 } 5
        { renewResult := none,
          keyReadResult := some { privateKeyData := "aGk=", leaseDuration := 60, leaseID := "L1" },
          keyJSONValid := true }).call = GCPKeyCall.issueKey ∧
    (renewKey { leaseID := "", leaseDuration := 0, leaseExpiresAt := 0 } 5
        { renewResult := none,
          keyReadResult := some { privateKeyData := "aGk=", leaseDuration := 60, leaseID := "L1" },
          keyJSONValid := true }).fileWritten = some [104, 105] := by
  have h := (renewKey_branch { leaseID := "", leaseDuration := 0, leaseExpiresAt := 0 } 5
      { renewResult := none,
        keyReadResult := some { privateKeyData := "aGk=", leaseDuration := 60, leaseID := "L1" },
        keyJSONValid := true }).2 (Or.inl rfl)
  refine ⟨h.1, ?_⟩
  have h2 := h.2 { privateKeyData := "aGk=", leaseDuration := 60, leaseID := "L1" } rfl
  rw [h2]
  rfl

/-- C3 counterexample: with a held, unexpired lease and a failing renewal
call, `renewKey` performs the lease-renewal call (not key issuance),
writes no key file, and returns an error: there is no fallback to issuing
a brand-new key within the same attempt. -/
theorem renewKey_no_fallback_counterexample :
    renewKey { leaseID := "lease1", leaseDuration := seconds 3600, leaseExpiresAt := seconds 1000 } 0
        { renewResult := none,
          keyReadResult := some { privateKeyData := "aGk=", leaseDuration := 60, leaseID := "L2" },
          keyJSONValid := true } =
      { state := { leaseID := "lease1", leaseDuration := seconds 3600, leaseExpiresAt := seconds 1000 },
        call := .renewLease, fileWritten := none,
        result := .error "unable to renew key lease" } := by
  rfl

/-- C3 (amended): with a held, unexpired lease, if the lease-renewal call
fails, `renewKey` returns an error without issuing a new key or writing
the destination file, leaving the lease state unchanged; a new key is
issued only on a later attempt, once no lease is held or the held lease
has expired. -/
theorem renewKey_renewFailure_error (s : GCPKeyState) (now : Int) (vault : GCPKeyVault)
    (hid : s.leaseID ≠ "") (hexp : ¬ now - s.leaseExpiresAt > 0)
    (hfail : vault.renewResult = none) :
    renewKey s now vault =
      { state := s, call := .renewLease, fileWritten := none,
        result := .error "unable to renew key lease" } := by
  rw [renewKey, if_neg (by tauto), hfail]

/-- Witness for C3's amended theorem: concrete held lease `lease1` expiring
at `seconds 1000`, renewal attempted at time `0` against a vault whose
renew call fails. -/
theorem renewKey_renewFailure_error_witness :
    ("lease1" : String) ≠ "" ∧ ¬ (0 : Int) - seconds 1000 > 0 ∧
    renewKey { leaseID := "lease1", leaseDuration := seconds 3600, leaseExpiresAt := seconds 1000 } 0
        { renewResult := none, keyReadResult := none, keyJSONValid := true } =
      { state := { leaseID := "lease1", leaseDuration := seconds 3600, leaseExpiresAt := seconds 1000 },
        call := .renewLease, fileWritten := none,
        result := .error "unable to renew key lease" } :=
  ⟨by decide, by decide,
    renewKey_renewFailure_error _ 0 _ (by decide) (by decide) rfl⟩

/-! ## GCP metadata emulation (provider_gcp.go)

`updateMetadata` reads the vault static-account definition and refreshes
the `gceMetadata` record used by the metadata-service endpoints. A field
of the vault response that is absent or not of the asserted Go type is
modelled as `none`. -/

/-- Fields of the vault static-account definition relevant to
`updateMetadata`. `tokenScopes` carries the OAuth scopes present in the
vault object (`token_scopes`); it is part of the response but, as the
embedding of `updateMetadata` below shows, never read by the code. -/
structure StaticAccountData where
  serviceAccountProject : Option String
  serviceAccountEmail : Option String
  tokenScopes : Option (List String)
  deriving DecidableEq, Repr

/-- The `gceMetadata` record (provider_gcp.go). A Go `nil` scopes slice is
modelled as `[]` (encoding/json serializes it as `null`). -/
structure GceMetadata where
  project : String
  email : String
  scopes : List String
  deriving DecidableEq, Repr

/-- One `gceServiceAccountDetails` value returned by the recursive
service-accounts endpoints. -/
structure GceServiceAccountDetails where
  aliases : List String
  email : String
  scopes : List String
  deriving DecidableEq, Repr

/-- updateMetadata (provider_gcp.go): errors if `service_account_project`
or `service_account_email` is not a string; otherwise stores a metadata
record with those two fields. Faithful to the code, the `scopes` field is
never assigned and keeps Go's zero value `nil` (here `[]`). -/
def updateMetadata (sa : StaticAccountData) : Except String GceMetadata :=
  match sa.serviceAccountProject with
  | none => .error "project is not a string"
  | some project =>
    match sa.serviceAccountEmail with
    | none => .error "service_account_email is not a string"
    | some email => .ok { project := project, email := email, scopes := [] }

/-- JSON object written by
`GET /computeMetadata/v1/instance/service-accounts/?recursive=true`
(provider_gcp.go setupEndpoints): keys `"default"` and the configured
email, each mapping to the service-account details built from the current
metadata. -/
def serviceAccountsRecursive (m : GceMetadata) :
    List (String × GceServiceAccountDetails) :=
  [("default", { aliases := ["default"], email := m.email, scopes := m.scopes }),
   (m.email, { aliases := ["default"], email := m.email, scopes := m.scopes })]

/-- C4 (code bug): refreshing the metadata from a static-account
definition with email `a@b.iam.gserviceaccount.com` and OAuth scopes
`["s1"]` yields a recursive-list response that does contain both keys
`"default"` and the email, but whose details carry the empty scopes value
(Go `nil`, JSON `null`) in place of the `["s1"]` of the vault definition:
`updateMetadata` never reads the scopes, contradicting the claim (and the
historical revision of the code, which populated them from
`token_scopes`). -/
theorem updateMetadata_drops_scopes :
    updateMetadata { serviceAccountProject := some "p",
                     serviceAccountEmail := some "a@b.iam.gserviceaccount.com",
                     tokenScopes := some ["s1"] } =
      .ok { project := "p", email := "a@b.iam.gserviceaccount.com", scopes := [] } ∧
    (serviceAccountsRecursive
        { project := "p", email := "a@b.iam.gserviceaccount.com", scopes := [] }).map
        Prod.fst = ["default", "a@b.iam.gserviceaccount.com"] ∧
    (serviceAccountsRecursive
        { project := "p", email := "a@b.iam.gserviceaccount.com", scopes := [] }).map
        (fun p => p.2.scopes) = [[], []] ∧
    ([] : List String) ≠ ["s1"] := by
  exact ⟨rfl, rfl, rfl, by decide⟩

/-! ## Vault session manager (login.go)

`manageLoginToken` runs a loop holding a `*api.Secret` (possibly nil, and
possibly with a nil `Auth` block) and an expiry instant. Each cycle calls
`renewLoginToken`, which reloads the CA and then either logs in afresh or
renews the held token. The vault and the filesystem are replaced by a
`LoginEnv` record holding what each call would return. -/

/-- The auth block of a vault secret (`secret.Auth`): client token, lease
duration in seconds, renewability. -/
structure AuthData where
  clientToken : String
  leaseDuration : Int
  renewable : Bool
  deriving DecidableEq, Repr

/-- Outcome of the vault login call: request error, nil secret, secret
with nil auth block, or a secret carrying auth data. -/
inductive LoginResp
  | unreachable
  | nilSecret
  | noAuth
  | okAuth (auth : AuthData)
  deriving DecidableEq, Repr

/-- Environment of one login/renew cycle: whether the CA reload succeeds,
the contents of the identity-token file (`none` = unreadable), the login
response, and the result of a token self-renewal call (`none` = error). -/
structure LoginEnv where
  caReloadOk : Bool
  tokenFile : Option String
  loginResp : LoginResp
  renewResult : Option AuthData
  deriving DecidableEq, Repr

/-- login (login.go): read the platform-identity token file and exchange
it at the vault's login endpoint; errors if the file is unreadable, the
vault call fails, no secret is returned, or the secret lacks auth data. -/
def login (env : LoginEnv) : Except String AuthData :=
  match env.tokenFile with
  | none => .error "unable to read token file"
  | some _ =>
    match env.loginResp with
    | .unreachable => .error "unable to login"
    | .nilSecret => .error "no secret returned"
    | .noAuth => .error "no authentication information attached to the response"
    | .okAuth a => .ok a

/-- The secret held across cycles by `manageLoginToken`: `none` models the
nil pointer, `some none` a secret whose `Auth` is nil. -/
abbrev HeldSecret := Option (Option AuthData)

/-- The guard in `renewLoginToken` deciding to log in afresh:
`secret == nil || secret.Auth == nil || !secret.Auth.Renewable ||
time.Since(expiresAt) > 0`. -/
def needsLogin (secret : HeldSecret) (expiresAt now : Int) : Bool :=
  match secret with
  | none => true
  | some none => true
  | some (some a) => !a.renewable || decide (now - expiresAt > 0)

/-- Which vault operation a `renewLoginToken` call performs. -/
inductive SessionCall
  | loginCall
  | renewCall
  deriving DecidableEq, Repr

/-- The operation `renewLoginToken` performs for a given held secret,
expiry and current instant. -/
def renewLoginTokenCall (secret : HeldSecret) (expiresAt now : Int) : SessionCall :=
  if needsLogin secret expiresAt now then .loginCall else .renewCall

/-- renewLoginToken (login.go): reload the vault CA (propagating a reload
error), then log in afresh when no renewable unexpired token is held, and
otherwise renew the held token in place (error if the renewal call
fails). -/
def renewLoginToken (secret : HeldSecret) (expiresAt now : Int) (env : LoginEnv) :
    Except String AuthData :=
  if ¬ env.caReloadOk then .error "unable to reload vault CA"
  else if needsLogin secret expiresAt now then login env
  else
    match env.renewResult with
    | none => .error "unable to renew login token"
    | some a => .ok a

/-- Loop variables of `manageLoginToken`. -/
structure LoginState where
  firstRun : Bool
  secret : HeldSecret
  expiresAt : Int
  deriving DecidableEq, Repr

/-- Outcome of one loop iteration: process exit with status 1, a backoff
retry (state unchanged), or a successful renewal with the updated state
and whether the one-shot readiness signal was sent. -/
inductive LoginCycleOutcome
  | fatalExit
  | backoffRetry (st : LoginState)
  | renewed (st : LoginState) (signalled : Bool)
  deriving DecidableEq, Repr

/-- One iteration of the `manageLoginToken` loop (login.go): a failed
`renewLoginToken` call exits the process on the first run (`os.Exit(1)`)
and otherwise backs off leaving the stored secret and expiry unchanged; a
successful call stores the new secret, recomputes the expiry from the
secret's lease duration, and sends the readiness signal on the first
run. -/
def manageLoginStep (st : LoginState) (now : Int) (env : LoginEnv) : LoginCycleOutcome :=
  match renewLoginToken st.secret st.expiresAt now env with
  | .error _ => if st.firstRun then .fatalExit else .backoffRetry st
  | .ok a =>
    .renewed { firstRun := false, secret := some (some a),
               expiresAt := now + seconds a.leaseDuration } st.firstRun

/-- C5 counterexample: a renewal cycle at time 0 on a held renewable
session expiring at `seconds 1000`, whose renewal call fails, leaves the
stored secret unchanged via a backoff retry; the next cycle (here at time
10, still before the expiry) performs another token renewal, not a fresh
login — refuting the claim that after any renewal-call failure the next
cycle re-runs login. -/
theorem renewFailure_next_cycle_renews_counterexample :
    manageLoginStep
        { firstRun := false,
          secret := some (some { clientToken := "t1", leaseDuration := 3600, renewable := true }),
          expiresAt := seconds 1000 } 0
        { caReloadOk := true, tokenFile := some "jwt", loginResp := .unreachable,
          renewResult := none } =
      .backoffRetry
        { firstRun := false,
          secret := some (some { clientToken := "t1", leaseDuration := 3600, renewable := true }),
          expiresAt := seconds 1000 } ∧
    renewLoginTokenCall
        (some (some { clientToken := "t1", leaseDuration := 3600, renewable := true }))
        (seconds 1000) 10 = .renewCall := by
  exact ⟨rfl, rfl⟩

/-- C5 (amended): a cycle re-runs login exactly when the stored secret is
absent, lacks auth data, is non-renewable, or its lease has already
expired; a failed renewal call leaves the stored secret and expiry
unchanged, so the next cycle re-runs login only if one of those
conditions holds by then (for example the lease has meanwhile expired),
not merely because the previous renewal call failed. -/
theorem loginCall_iff_and_failure_preserves_state :
    (∀ st now env, st.firstRun = false →
      (∃ e, renewLoginToken st.secret st.expiresAt now env = .error e) →
      manageLoginStep st now env = .backoffRetry st) ∧
    (∀ a expiresAt now,
      renewLoginTokenCall (some (some a)) expiresAt now = .loginCall ↔
        (a.renewable = false ∨ now - expiresAt > 0)) ∧
    (∀ expiresAt now, renewLoginTokenCall none expiresAt now = .loginCall) ∧
    (∀ expiresAt now, renewLoginTokenCall (some none) expiresAt now = .loginCall) := by
  refine ⟨?_, ?_, fun _ _ => rfl, fun _ _ => rfl⟩
  · intro st now env hfr ⟨e, he⟩
    unfold manageLoginStep
    rw [he, hfr]
    rfl
  · intro a expiresAt now
    unfold renewLoginTokenCall needsLogin
    rcases hr : a.renewable <;> by_cases hlt : now - expiresAt > 0 <;>
      simp [hr, hlt]

/-- Witness for C5's amended theorem: the failure-preserves-state part
applied at a concrete non-first-run state whose renewal call fails, and
the branch characterisation applied to a concrete renewable auth block
before its expiry. -/
theorem loginCall_iff_witness :
    manageLoginStep
        { firstRun := false,
          secret := some (some { clientToken := "t2", leaseDuration := 60, renewable := true }),
          expiresAt := seconds 500 } 7
        { caReloadOk := true, tokenFile := some "jwt", loginResp := .unreachable,
          renewResult := none } =
      .backoffRetry
        { firstRun := false,
          secret := some (some { clientToken := "t2", leaseDuration := 60, renewable := true }),
          expiresAt := seconds 500 } ∧
    (renewLoginTokenCall
        (some (some { clientToken := "t2", leaseDuration := 60, renewable := true }))
        (seconds 500) 7 = .loginCall ↔
      (true = false ∨ (7 : Int) - seconds 500 > 0)) :=
  ⟨loginCall_iff_and_failure_preserves_state.1
      { firstRun := false,
        secret := some (some { clientToken := "t2", leaseDuration := 60, renewable := true }),
        expiresAt := seconds 500 } 7
      { caReloadOk := true, tokenFile := some "jwt", loginResp := .unreachable,
        renewResult := none } rfl ⟨"unable to renew login token", rfl⟩,
    loginCall_iff_and_failure_preserves_state.2.1
      { clientToken := "t2", leaseDuration := 60, renewable := true } (seconds 500) 7⟩

/-- C6: when the very first login attempt fails — the identity-token file
is unreadable, the vault is unreachable, no secret is returned, or the
response lacks authentication data — the loop exits the process
immediately (non-zero status); and once the first success has happened
(`firstRun = false`) no login or renewal failure is ever fatal: the cycle
backs off with the state unchanged and retries. -/
theorem firstLoginFatal_laterRetried (st : LoginState) (now : Int) (env : LoginEnv) :
    ((env.tokenFile = none ∨ env.loginResp = .unreachable ∨ env.loginResp = .nilSecret ∨
        env.loginResp = .noAuth) →
      manageLoginStep { firstRun := true, secret := none, expiresAt := 0 } now env =
        .fatalExit) ∧
    (st.firstRun = false →
      manageLoginStep st now env ≠ .fatalExit ∧
      ((∃ e, renewLoginToken st.secret st.expiresAt now env = .error e) →
        manageLoginStep st now env = .backoffRetry st)) := by
  constructor
  · intro hcause
    obtain ⟨ca, tf, lr, rr⟩ := env
    simp only at hcause
    cases ca <;> cases tf <;> rcases hcause with h | h | h | h <;>
      simp_all [manageLoginStep, renewLoginToken, needsLogin, login]
  · intro hfr
    constructor
    · unfold manageLoginStep
      cases hr : renewLoginToken st.secret st.expiresAt now env <;> simp [hfr]
    · rintro ⟨e, he⟩
      unfold manageLoginStep
      rw [he, hfr]
      rfl

/-- Witness for C6: a first-run cycle whose login response lacks
authentication data exits fatally, and a non-first-run cycle with the same
failing environment backs off instead. -/
theorem firstLoginFatal_witness :
    manageLoginStep { firstRun := true, secret := none, expiresAt := 0 } 3
        { caReloadOk := true, tokenFile := some "jwt", loginResp := .noAuth,
          renewResult := none } = .fatalExit ∧
    manageLoginStep { firstRun := false, secret := none, expiresAt := 0 } 3
        { caReloadOk := true, tokenFile := some "jwt", loginResp := .noAuth,
          renewResult := none } ≠ .fatalExit :=
  ⟨(firstLoginFatal_laterRetried { firstRun := true, secret := none, expiresAt := 0 } 3
      { caReloadOk := true, tokenFile := some "jwt", loginResp := .noAuth,
        renewResult := none }).1 (Or.inr (Or.inr (Or.inr rfl))),
    ((firstLoginFatal_laterRetried { firstRun := false, secret := none, expiresAt := 0 } 3
      { caReloadOk := true, tokenFile := some "jwt", loginResp := .noAuth,
        renewResult := none }).2 rfl).1⟩

/-! ## GCP token credentials and their JSON marshalling (provider_gcp.go) -/

/-- Whole seconds of a duration given in nanoseconds, truncated toward
zero: Go's `int(d.Seconds())` (float-to-int conversion truncates toward
zero). -/
def durationTruncSeconds (d : Int) : Int :=
  if 0 ≤ d then d / 1000000000 else -((-d) / 1000000000)

/-- The `GCPCredentials` struct: stored `ExpiresInSec` field, and the
unexported absolute expiry instant `expiresAt`. -/
structure GCPCredentials where
  accessToken : String
  expiresInSec : Int
  tokenType : String
  expiresAt : Int
  deriving DecidableEq, Repr

/-- The JSON object produced by marshalling `GCPCredentials`
(`access_token`, `expires_in`, `token_type`). -/
structure GCPCredentialsJSON where
  accessTokenField : String
  expiresInField : Int
  tokenTypeField : String
  deriving DecidableEq, Repr

/-- MarshalJSON (provider_gcp.go): the serialized `expires_in` field is
overridden with `int(time.Until(gc.expiresAt).Seconds())` computed at the
marshal instant `now`; the stored `ExpiresInSec` field is shadowed by the
override and never serialized. -/
def marshalGCPCredentials (c : GCPCredentials) (now : Int) : GCPCredentialsJSON :=
  { accessTokenField := c.accessToken,
    expiresInField := durationTruncSeconds (c.expiresAt - now),
    tokenTypeField := c.tokenType }

/-- C7: marshalling at instant `t` a credential whose `expiresAt` lies
`k ≥ 0` whole seconds after `t` produces `expires_in = k` (so
`expiresAt = t + 42s` gives exactly 42); and the serialized value is
recomputed from `t` and `expiresAt` alone — it does not depend on the
stored `ExpiresInSec` field, i.e. it is not frozen at fetch time. -/
theorem marshal_expiresIn_recomputed (c : GCPCredentials) (t k : Int)
    (hk : 0 ≤ k) (he : c.expiresAt = t + k * 1000000000) :
    (marshalGCPCredentials c t).expiresInField = k ∧
    (∀ v, marshalGCPCredentials { c with expiresInSec := v } t =
      marshalGCPCredentials c t) := by
  constructor
  · have h1 : c.expiresAt - t = k * 1000000000 := by rw [he]; ring
    unfold marshalGCPCredentials durationTruncSeconds
    rw [h1, if_pos (by positivity)]
    show k * 1000000000 / 1000000000 = k
    omega
  · intro v
    rfl

/-- Witness for C7: a credential expiring 42 seconds after the marshal
instant serializes with `expires_in = 42`, whatever stale value the stored
field holds. -/
theorem marshal_expiresIn_witness :
    (0 : Int) ≤ 42 ∧
    (marshalGCPCredentials
        { accessToken := "tok", expiresInSec := 9999, tokenType := "Bearer",
          expiresAt := 5 + 42 * 1000000000 } 5).expiresInField = 42 :=
  ⟨by norm_num,
    (marshal_expiresIn_recomputed
      { accessToken := "tok", expiresInSec := 9999, tokenType := "Bearer",
        expiresAt := 5 + 42 * 1000000000 } 5 42 (by norm_num) rfl).1⟩

/-! ## HTTP error bodies (provider_aws.go, provider_gcp.go)

String helpers mirror the Go transformations applied to
`http.StatusText`. -/

/-- Characters of `s` with the spaces removed
(`strings.ReplaceAll(s, " ", "")`). -/
def removeSpaces (s : String) : String :=
  ⟨s.data.filter (fun c => c ≠ ' ')⟩

/-- Characters of `s` with each space replaced by an underscore
(`strings.ReplaceAll(s, " ", "_")`). -/
def spacesToUnderscores (s : String) : String :=
  ⟨s.data.map (fun c => if c = ' ' then '_' else c)⟩

/-- Lower-cased characters of `s` (`strings.ToLower`, ASCII inputs). -/
def toLowerStr (s : String) : String :=
  ⟨s.data.map Char.toLower⟩

/-- Go's `http.StatusText` restricted to the status codes the sidecar
uses; unknown codes map to the empty string as in Go. -/
def statusText (code : Int) : String :=
  if code = 200 then "OK"
  else if code = 301 then "Moved Permanently"
  else if code = 404 then "Not Found"
  else if code = 500 then "Internal Server Error"
  else ""

/-- The `{code, message}` error body of the AWS credentials endpoint. -/
structure AWSErrorBody where
  code : String
  message : String
  deriving DecidableEq, Repr

/-- awsError.write (provider_aws.go): the `code` field is
`http.StatusText(code)` with the spaces removed ("Not Found" becomes
"NotFound"), the `message` field is the given message. -/
def awsErrorWrite (msg : String) (code : Int) : AWSErrorBody :=
  { code := removeSpaces (statusText code), message := msg }

/-- The `{error, error_description}` error body of the GCP metadata
endpoints. -/
structure GCPErrorBody where
  errorField : String
  errorDescriptionField : String
  deriving DecidableEq, Repr

/-- gcpError.write (provider_gcp.go): the `error` field is
`http.StatusText(code)` lower-cased with spaces replaced by underscores
("Not Found" becomes "not_found"), `error_description` is the given
message. -/
def gcpErrorWrite (msg : String) (code : Int) : GCPErrorBody :=
  { errorField := spacesToUnderscores (toLowerStr (statusText code)),
    errorDescriptionField := msg }

/-! ## AWS provider (provider_aws.go) -/

/-- The credentials served at `/credentials` (`AccessKeyId`,
`SecretAccessKey`, `Token`, `Expiration`); the expiration instant is `Int`
nanoseconds. -/
structure AWSCredentials where
  accessKeyID : String
  secretAccessKey : String
  token : String
  expiration : Int
  deriving DecidableEq, Repr

/-- The STS-backed secret returned by `Read(path + "/sts/" + role)`. -/
structure AWSSTSSecret where
  leaseID : String
  leaseDuration : Int
  accessKey : String
  secretKey : String
  securityToken : String
  deriving DecidableEq, Repr

/-- The part of the `PUT /v1/sys/leases/lookup` response the code decodes:
`data.expire_time`. -/
structure LeaseLookup where
  expireTime : Int
  deriving DecidableEq, Repr

/-- Outcomes of the two vault calls an AWS renew makes (`none` meaning the
call, or the decoding of its response, errors). -/
structure AWSVault where
  stsResult : Option AWSSTSSecret
  leaseLookupResult : Option LeaseLookup
  deriving DecidableEq, Repr

/-- AWSProviderConfig.renew (provider_aws.go): read an STS secret, then
look up the secret's lease to obtain the absolute `expire_time`; on
success replace the stored credentials — taking `Expiration` from the
lookup response — and return the secret's lease duration as the next
renewal interval; on any error leave the stored credentials unchanged. -/
def awsRenew (creds0 : Option AWSCredentials) (vault : AWSVault) :
    Option AWSCredentials × Except String Int :=
  match vault.stsResult with
  | none => (creds0, .error "unable to read sts secret")
  | some sts =>
    match vault.leaseLookupResult with
    | none => (creds0, .error "unable to look up lease")
    | some l =>
      (some { accessKeyID := sts.accessKey, secretAccessKey := sts.secretKey,
              token := sts.securityToken, expiration := l.expireTime },
        .ok (seconds sts.leaseDuration))

/-- C9: every successful AWS renew stores credentials whose `Expiration`
equals the absolute `expire_time` reported by the `sys/leases/lookup`
call for the secret's lease — `awsRenew` takes no wall-clock instant at
all, so the expiry cannot be a wall-clock guess — and returns the
secret's lease duration in seconds as the next renewal interval. -/
theorem awsRenew_expiration_from_lookup (creds0 : Option AWSCredentials)
    (sts : AWSSTSSecret) (l : LeaseLookup) (vault : AWSVault)
    (hs : vault.stsResult = some sts) (hl : vault.leaseLookupResult = some l) :
    awsRenew creds0 vault =
      (some { accessKeyID := sts.accessKey, secretAccessKey := sts.secretKey,
              token := sts.securityToken, expiration := l.expireTime },
        .ok (seconds sts.leaseDuration)) := by
  unfold awsRenew
  rw [hs, hl]

/-- Witness for C9: a concrete STS secret with a 900-second lease and a
lookup response expiring at `seconds 900`. -/
theorem awsRenew_expiration_witness :
    awsRenew none
        { stsResult := some ⟨"aws1", 900, "AKIA", "SK", "ST"⟩,
          leaseLookupResult := some ⟨seconds 900⟩ } =
      (some { accessKeyID := "AKIA", secretAccessKey := "SK", token := "ST",
              expiration := seconds 900 },
        .ok (seconds 900)) :=
  awsRenew_expiration_from_lookup none
    ⟨"aws1", 900, "AKIA", "SK", "ST"⟩ ⟨seconds 900⟩
    { stsResult := some ⟨"aws1", 900, "AKIA", "SK", "ST"⟩,
      leaseLookupResult := some ⟨seconds 900⟩ }
    rfl rfl

/-- Body of a response of the AWS `/credentials` endpoint. -/
inductive AWSHandlerBody
  | credsBody (c : AWSCredentials)
  | errBody (e : AWSErrorBody)
  deriving DecidableEq, Repr

/-- A response of the AWS `/credentials` endpoint. -/
structure AWSHandlerResponse where
  status : Int
  body : AWSHandlerBody
  deriving DecidableEq, Repr

/-- Modelled from the spec: the helper `httpError` is defined in the
repository's sidecar/provider.go, which is not among the provided source
files (an earlier revision of it appears and behaves the same). Per the
spec, a protocol-surface error is "reported to the caller as a
provider-shaped structured error body with an appropriate HTTP status,
never as a generic 500 with no body": `httpError` writes the HTTP status
`code` and then the body produced by the provider error's `write`
method. -/
def httpErrorAWS (msg : String) (code : Int) : AWSHandlerResponse :=
  { status := code, body := .errBody (awsErrorWrite msg code) }

/-- The `/credentials` handler (provider_aws.go setupEndpoints): a 404
structured error while no credentials are stored, a 500 structured error
if JSON encoding fails, and otherwise the JSON-encoded stored credentials
(status 200, Go's implicit WriteHeader). `encodeOk` abstracts the success
of `json.Encoder.Encode`. -/
def awsCredentialsEndpoint (creds : Option AWSCredentials) (encodeOk : Bool) :
    AWSHandlerResponse :=
  match creds with
  | none => httpErrorAWS "Credentials not initialized" 404
  | some c =>
    if encodeOk then { status := 200, body := .credsBody c }
    else httpErrorAWS "Error encoding credentials response as json" 500

/-- C8: before any successful fetch (stored credentials still `none`),
every request to `/credentials` gets status 404 and a structured JSON body
whose `code` is the HTTP status text with spaces removed (`"NotFound"`)
and whose `message` is non-empty — never an empty JSON object. -/
theorem awsCredentials_notFound_before_fetch :
    awsCredentialsEndpoint none true =
      { status := 404,
        body := .errBody { code := "NotFound", message := "Credentials not initialized" } } ∧
    awsCredentialsEndpoint none false =
      { status := 404,
        body := .errBody { code := "NotFound", message := "Credentials not initialized" } } ∧
    ("NotFound" : String) ≠ "" ∧ ("Credentials not initialized" : String) ≠ "" := by
  exact ⟨rfl, rfl, by decide, by decide⟩

/-! ## GCP token endpoint (provider_gcp.go) -/

/-- Body of a response of the GCP token metadata endpoint. -/
inductive GCPTokenBody
  | tokenBody (j : GCPCredentialsJSON)
  | errBody (e : GCPErrorBody)
  deriving DecidableEq, Repr

/-- A response of the GCP token metadata endpoint. -/
structure GCPTokenResponse where
  status : Int
  body : GCPTokenBody
  deriving DecidableEq, Repr

/-- Modelled from the spec: the same missing `httpError` helper as
`httpErrorAWS`, instantiated at the GCP provider error shape. -/
def httpErrorGCP (msg : String) (code : Int) : GCPTokenResponse :=
  { status := code, body := .errBody (gcpErrorWrite msg code) }

/-- The token handler
(`/computeMetadata/v1/instance/service-accounts/.../token`, provider_gcp.go
setupEndpoints): a 404 structured error while no credentials are stored, a
500 structured error if JSON encoding fails, and otherwise the credentials
marshalled at the instant of the request. -/
def gcpTokenEndpoint (creds : Option GCPCredentials) (now : Int) (encodeOk : Bool) :
    GCPTokenResponse :=
  match creds with
  | none => httpErrorGCP "Credentials not initialized" 404
  | some c =>
    if encodeOk then { status := 200, body := .tokenBody (marshalGCPCredentials c now) }
    else httpErrorGCP "Error encoding credentials response as json" 500

/-- C10: before any credential has been fetched (stored credentials
`none`), every request to the token endpoint gets status 404 and the JSON
body whose `error` field is the HTTP status text lower-cased with spaces
replaced by underscores (`"not_found"`) and whose `error_description` is a
non-empty message. -/
theorem gcpToken_notFound_before_fetch (now : Int) (encodeOk : Bool) :
    gcpTokenEndpoint none now encodeOk =
      { status := 404,
        body := .errBody { errorField := "not_found",
                           errorDescriptionField := "Credentials not initialized" } } ∧
    ("not_found" : String) ≠ "" ∧ ("Credentials not initialized" : String) ≠ "" := by
  exact ⟨rfl, by decide, by decide⟩

/-- Witness for C10: the token endpoint evaluated before any fetch at a
concrete request instant. -/
theorem gcpToken_notFound_witness :
    gcpTokenEndpoint none 12345 true =
      { status := 404,
        body := .errBody { errorField := "not_found",
                           errorDescriptionField := "Credentials not initialized" } } :=
  (gcpToken_notFound_before_fetch 12345 true).1

end VKCC
